import Mathlib

/-!
Verification of the grove daemon (instance supervisor) against its
natural-language specification.

The Go sources are shallowly embedded: pure fragments become Lean
functions; stateful handlers become explicit state-passing functions on a
`Daemon` / `Instance` record; machine integers become `Nat`/`Int` with
explicit `% 2 ^ w` where overflow matters; fallible code returns
`Option`/`Except`.  Byte streams are `List Nat` with every element < 256
where it matters.  Time instants are modelled as integers (nanoseconds);
the Go zero `time.Time` is modelled as `0`.
-/

namespace Grove

/-! ## proto/messages.go — state constants and attach-stream framing -/

def StateRunning : String := "RUNNING"
def StateWaiting : String := "WAITING"
def StateAttached : String := "ATTACHED"
def StateExited : String := "EXITED"
def StateCrashed : String := "CRASHED"
def StateKilled : String := "KILLED"
def StateFinished : String := "FINISHED"
def StateChecking : String := "CHECKING"

/-- Attach-stream frame type constants (`proto.AttachFrameData` etc.). -/
def AttachFrameData : Nat := 0x00

def AttachFrameResize : Nat := 0x01

def AttachFrameDetach : Nat := 0x02

/-- `binary.BigEndian.PutUint32`: the four big-endian bytes of a `uint32`. -/
def putUint32BE (v : Nat) : List Nat :=
  [v / 2 ^ 24 % 256, v / 2 ^ 16 % 256, v / 2 ^ 8 % 256, v % 256]

/-- `binary.BigEndian.Uint32`: recombine four big-endian bytes. -/
def getUint32BE (b0 b1 b2 b3 : Nat) : Nat :=
  b0 * 2 ^ 24 + b1 * 2 ^ 16 + b2 * 2 ^ 8 + b3

/-- `proto.WriteFrame`: one byte of frame type, 4 bytes of big-endian
payload length (`uint32(len(payload))`, i.e. length mod 2^32), then the
payload itself. -/
def WriteFrame (frameType : Nat) (payload : List Nat) : List Nat :=
  frameType % 256 :: putUint32BE (payload.length % 2 ^ 32) ++ payload

/-- `proto.ReadFrame` on a byte stream: reads the 5-byte header (error on
EOF), rejects a length above the 1 MiB sanity cap, returns
`(frameType, payload, rest-of-stream)`. -/
def ReadFrame (input : List Nat) : Except String (Nat × List Nat × List Nat) :=
  match input with
  | t :: b0 :: b1 :: b2 :: b3 :: rest =>
    let n := getUint32BE b0 b1 b2 b3
    if n > 2 ^ 20 then
      Except.error "attach frame too large"
    else if n = 0 then
      Except.ok (t, [], rest)
    else if rest.length < n then
      Except.error "unexpected EOF"
    else
      Except.ok (t, rest.take n, rest.drop n)
  | _ => Except.error "unexpected EOF"

theorem putUint32BE_getUint32BE (n : Nat) (h : n < 2 ^ 32) :
    getUint32BE (n / 2 ^ 24 % 256) (n / 2 ^ 16 % 256) (n / 2 ^ 8 % 256) (n % 256) = n := by
  unfold getUint32BE
  omega

/-- C9 (amended): decoding the bytes produced by encoding an attach-stream
frame yields the original frame, for every frame type byte and every
payload of at most 1 MiB (2^20 bytes), including the zero-length
payload. -/
theorem ReadFrame_WriteFrame (t : Nat) (p : List Nat)
    (ht : t < 256) (hp : p.length ≤ 2 ^ 20) :
    ReadFrame (WriteFrame t p) = Except.ok (t, p, []) := by
  have hm : t % 256 = t := Nat.mod_eq_of_lt ht
  have hl : p.length % 2 ^ 32 = p.length := Nat.mod_eq_of_lt (by omega)
  have hg := putUint32BE_getUint32BE p.length (by omega)
  simp only [WriteFrame, putUint32BE, hl, hm, List.cons_append, List.nil_append,
    ReadFrame, hg]
  by_cases h0 : p.length = 0
  · have hp0 : p = [] := List.eq_nil_of_length_eq_zero h0
    subst hp0
    simp
  · rw [if_neg (by omega), if_neg h0, if_neg (by omega)]
    rw [List.take_length, List.drop_length]

/-- C9 witness: round-trip at a concrete DATA frame and at a concrete
zero-length DETACH frame. -/
theorem ReadFrame_WriteFrame_witness :
    ReadFrame (WriteFrame AttachFrameData [104, 105]) =
      Except.ok (AttachFrameData, [104, 105], []) ∧
    ReadFrame (WriteFrame AttachFrameDetach []) =
      Except.ok (AttachFrameDetach, [], []) :=
  ⟨ReadFrame_WriteFrame AttachFrameData [104, 105] (by decide) (by decide),
   ReadFrame_WriteFrame AttachFrameDetach [] (by decide) (by decide)⟩

/-- Payload one byte longer than the 1 MiB frame cap. -/
def bigPayload : List Nat := List.replicate (2 ^ 20 + 1) 0

/-- C9 counterexample: the claim quantifies over every payload, but a
payload longer than 1 MiB encodes fine (`WriteFrame` has no length check)
while `ReadFrame` rejects it with the frame-size sanity cap, so
`decode (encode frame)` is an error, not the original frame. -/
theorem ReadFrame_WriteFrame_overlong :
    ReadFrame (WriteFrame AttachFrameData bigPayload) =
      Except.error "attach frame too large" := by
  have hlen : bigPayload.length = 2 ^ 20 + 1 := by
    unfold bigPayload
    exact List.length_replicate _ _
  unfold WriteFrame putUint32BE
  rw [hlen]
  norm_num [AttachFrameData]
  simp [ReadFrame, getUint32BE]

/-! ## instance.go — the per-instance state machine

`Instance` mirrors the Go struct.  Channels (`processDone`, `attachDone`)
and OS handles are I/O artefacts: the PTY master is modelled by its
nil-ness (`Option Unit`), a client connection by an identifier
(`Option Nat`).  Times are `Int` nanoseconds, `0` standing for Go's zero
`time.Time`. -/

structure Instance where
  id : String
  project : String
  branch : String
  worktreeDir : String
  createdAt : Int
  logFile : String
  state : String
  pid : Int
  ptm : Option Unit
  logBuf : List Nat
  lastOutputTime : Int
  endedAt : Int
  attachedConn : Option Nat
  instancesDir : String
  finishRequest : Bool
  killed : Bool
deriving DecidableEq, Repr

/-- `maxLogBytes = 1 << 20`: 1 MiB rolling log cap per instance. -/
def maxLogBytes : Nat := 2 ^ 20

/-- `waitingIdleThreshold = 2 * time.Second` in nanoseconds. -/
def waitingIdleThreshold : Int := 2000000000

/-- Snapshot record written to `instances/<id>.json` (`proto.InstanceInfo`). -/
structure InstanceInfo where
  id : String
  project : String
  state : String
  branch : String
  worktreeDir : String
  createdAt : Int
  endedAt : Int
  pid : Int
deriving DecidableEq, Repr

/-- `Instance.Info`: serialisable snapshot.  RUNNING is presented as
WAITING when the last PTY output is non-zero and more than the idle
threshold ago.  The method only reads the instance (under its mutex); the
second component is the receiver afterwards — unchanged. -/
def Instance.Info (inst : Instance) (now : Int) : InstanceInfo × Instance :=
  let state :=
    if inst.state = StateRunning ∧ inst.lastOutputTime ≠ 0 ∧
        now - inst.lastOutputTime > waitingIdleThreshold
    then StateWaiting
    else inst.state
  let endedAt : Int := if inst.endedAt ≠ 0 then inst.endedAt else 0
  (⟨inst.id, inst.project, state, inst.branch, inst.worktreeDir,
    inst.createdAt, endedAt, inst.pid⟩, inst)

/-- One non-empty chunk step of `ptyReader`'s loop: append to the rolling
in-memory buffer, trim to the 1 MiB cap by dropping the prefix
(`logBuf = logBuf[len(logBuf)-maxLogBytes:]`), update `lastOutputTime`.
(The on-disk log write and the best-effort forward to an attached
connection are I/O fan-out of the same chunk.) -/
def Instance.appendChunk (inst : Instance) (chunk : List Nat) (now : Int) : Instance :=
  let buf := inst.logBuf ++ chunk
  let buf := if buf.length > maxLogBytes then buf.drop (buf.length - maxLogBytes) else buf
  { inst with logBuf := buf, lastOutputTime := now }

/-- The whole chunk-append phase of `ptyReader`: fold `appendChunk` over
the successive non-empty chunks read from the PTY (each with the
`time.Now()` observed at that step). -/
def Instance.ptyReaderLoop (inst : Instance) (chunks : List (List Nat × Int)) : Instance :=
  chunks.foldl (fun i c => i.appendChunk c.1 c.2) inst

/-- `ptyReader`'s exit path, after the read loop breaks: wait on the
child (`waitOk` ⟺ `cmd.Wait()` returned nil ⟺ exit code zero), close and
clear the PTY master, set `endedAt`, pick the terminal state
(EXITED / KILLED / CRASHED), clear and close any attached connection,
then override to FINISHED when `finishRequest` is set.  (Persisting the
snapshot and closing `processDone` follow as I/O.) -/
def Instance.ptyReaderOnExit (inst : Instance) (waitOk : Bool) (now : Int) : Instance :=
  let inst1 :=
    { inst with
      ptm := none
      endedAt := now
      state :=
        if waitOk then StateExited
        else if inst.killed then StateKilled
        else StateCrashed
      attachedConn := none }
  if inst1.finishRequest then { inst1 with state := StateFinished } else inst1

/-- The registration step of `Instance.Attach`, under the mutex: reject
when already ATTACHED (the daemon writes an "already attached" error to
the connection and registers nothing); otherwise snapshot the log buffer
for replay, register the connection, and transition to ATTACHED. -/
def Instance.AttachBegin (inst : Instance) (conn : Nat) : Instance × Except String (List Nat) :=
  if inst.state = StateAttached then
    (inst, Except.error "already attached")
  else
    let replay := inst.logBuf
    ({ inst with attachedConn := some conn, state := StateAttached }, Except.ok replay)

/-- The deferred cleanup of the attach-reader goroutine: under the mutex,
if this connection is still the registered one, clear it and transition
ATTACHED back to RUNNING. -/
def Instance.attachReaderCleanup (inst : Instance) (conn : Nat) : Instance :=
  if inst.attachedConn = some conn then
    { inst with
      attachedConn := none
      state := if inst.state = StateAttached then StateRunning else inst.state }
  else inst

/-! ## project.go — registration, in-repo grove.yaml config and overlay -/

structure ContainerConfig where
  image : String
  compose : String
  service : String
  workdir : String
  mounts : List String
deriving DecidableEq, Repr

structure AgentConfig where
  command : String
  args : List String
deriving DecidableEq, Repr

structure Project where
  name : String
  repo : String
  container : ContainerConfig
  start : List String
  finish : List String
  check : List String
  agent : AgentConfig
  dataDir : String
deriving DecidableEq, Repr

/-- `Project.MainDir`: `filepath.Join(DataDir, "main")`. -/
def Project.MainDir (p : Project) : String := p.dataDir ++ "/main"

/-- The zero-value `Project` produced by unmarshalling an empty
`grove.yaml`. -/
def emptyInRepoConfig : Project :=
  { name := "", repo := "",
    container := { image := "", compose := "", service := "", workdir := "", mounts := [] },
    start := [], finish := [], check := [],
    agent := { command := "", args := [] },
    dataDir := "" }

/-- The overlay step of `loadInRepoConfig`: each in-repo field whose value
is non-empty (`!= ""` for scalars, `len > 0` for lists) replaces the
registration's value; the agent is replaced wholesale when its command is
non-empty. -/
def applyInRepoOverlay (p overlay : Project) : Project :=
  let p := if overlay.container.image ≠ "" then
    { p with container := { p.container with image := overlay.container.image } } else p
  let p := if overlay.container.compose ≠ "" then
    { p with container := { p.container with compose := overlay.container.compose } } else p
  let p := if overlay.container.service ≠ "" then
    { p with container := { p.container with service := overlay.container.service } } else p
  let p := if overlay.container.workdir ≠ "" then
    { p with container := { p.container with workdir := overlay.container.workdir } } else p
  let p := if 0 < overlay.container.mounts.length then
    { p with container := { p.container with mounts := overlay.container.mounts } } else p
  let p := if 0 < overlay.start.length then { p with start := overlay.start } else p
  let p := if overlay.agent.command ≠ "" then { p with agent := overlay.agent } else p
  let p := if 0 < overlay.finish.length then { p with finish := overlay.finish } else p
  let p := if 0 < overlay.check.length then { p with check := overlay.check } else p
  p

/-! ## daemon.go — registry, ID allocation, reload, request handlers -/

/-- The supervisor: data root plus the mutex-protected registry map,
modelled as an association list keyed by instance ID. -/
structure Daemon where
  rootDir : String
  instances : List (String × Instance)
deriving DecidableEq

/-- `d.instances[id]` map lookup. -/
def Daemon.getInstance (d : Daemon) (id : String) : Option Instance :=
  d.instances.lookup id

/-- `idAlphabet`: digits 1-9 then a-z, the ordered 35-slot alphabet for
instance IDs. -/
def idAlphabet : List String :=
  ["1", "2", "3", "4", "5", "6", "7", "8", "9",
   "a", "b", "c", "d", "e", "f", "g", "h", "i", "j", "k", "l", "m",
   "n", "o", "p", "q", "r", "s", "t", "u", "v", "w", "x", "y", "z"]

/-- The two-character IDs in the allocator's scan order: outer loop over
the first character, inner loop over the second. -/
def idPairs : List String :=
  idAlphabet.flatMap fun a => idAlphabet.map fun b => a ++ b

/-- `nextInstanceID`: first untaken single-character ID in alphabet order;
when all 35 are taken, first untaken two-character ID in scan order.
(`_, taken := d.instances[id]` is map membership, i.e. the lookup is
`some`.)  The random-hex fallback, reached only when all 35 + 1225 IDs
are taken, is modelled as `none`. -/
def Daemon.nextInstanceID (d : Daemon) : Option String :=
  match idAlphabet.find? (fun id => (d.getInstance id).isNone) with
  | some id => some id
  | none => idPairs.find? (fun id => (d.getInstance id).isNone)

/-- One file of `loadPersistedInstances`, for a parsed `InstanceInfo`:
compute the reload state (live states are rewritten to CRASHED with
`ended_at = now`; other states and their `ended_at` kept), build the
registered `Instance`, and report whether the corrected snapshot is
persisted back (`state != info.State`). -/
def reloadPersistedInstance (rootDir : String) (now : Int) (info : InstanceInfo) :
    Instance × Bool :=
  let endedAt0 : Int := if info.endedAt > 0 then info.endedAt else 0
  let live := info.state = StateRunning ∨ info.state = StateWaiting ∨
    info.state = StateAttached
  let state := if live then StateCrashed else info.state
  let endedAt := if live then now else endedAt0
  let inst : Instance :=
    { id := info.id, project := info.project, branch := info.branch,
      worktreeDir := info.worktreeDir, createdAt := info.createdAt,
      logFile := rootDir ++ "/logs/" ++ info.id ++ ".log",
      state := state, pid := 0, ptm := none, logBuf := [],
      lastOutputTime := 0, endedAt := endedAt, attachedConn := none,
      instancesDir := rootDir ++ "/instances",
      finishRequest := false, killed := false }
  (inst, decide (state ≠ info.state))

/-- JSON response (`proto.Response`), with the context-specific fields the
modelled handlers use. -/
structure Response where
  ok : Bool := false
  error : String := ""
  instanceID : String := ""
  worktreeDir : String := ""
  branch : String := ""
  initPath : String := ""
deriving DecidableEq, Repr

/-- `handleLogs`: look up the instance (state is never inspected), copy
the in-memory buffer under the instance mutex, respond `ok:true` and
write the copy.  Third component: the daemon afterwards — unchanged. -/
def Daemon.handleLogs (d : Daemon) (instanceID : String) : Response × List Nat × Daemon :=
  match d.getInstance instanceID with
  | none => ({ ok := false, error := "instance not found: " ++ instanceID }, [], d)
  | some inst =>
    let logs := inst.logBuf
    ({ ok := true, instanceID := instanceID }, logs, d)

/-- One tick of the `handleLogsFollow` poll loop: clamp the offset to zero
if the buffer was trimmed past it (rolled over the 1 MiB cap), send the
bytes from the offset, and advance the offset by what was sent.  Returns
(bytes written, new offset). -/
def followPoll (logBuf : List Nat) (offset : Nat) : List Nat × Nat :=
  let offset := if offset > logBuf.length then 0 else offset
  let newData := logBuf.drop offset
  (newData, offset + newData.length)

/-! ### handleStart

The start pipeline touches the filesystem, git, Docker and the PTY; each
such call is represented by its result, supplied in a `StartEnv` oracle.
`StartEffects` records the side effects the pipeline performs (worktree
and container creation/rollback, registry insertion, snapshot persist). -/

structure StartEnv where
  loadProjectRes : Except String Project
  ensureMainErr : Option String
  pullErr : Option String
  groveYaml : Option (Except String Project)
  createWorktreeRes : Except String String
  startContainerRes : Except String String
  runStartErr : Option String
  ensureAgentErr : Option String
  startAgentErr : Option String
  instanceID : String
deriving Repr

structure StartEffects where
  worktreeCreated : Bool
  worktreeRemoved : Bool
  containerStarted : Bool
  containerStopped : Bool
  registered : Bool
  persisted : Bool
deriving DecidableEq, Repr

def noStartEffects : StartEffects :=
  { worktreeCreated := false, worktreeRemoved := false,
    containerStarted := false, containerStopped := false,
    registered := false, persisted := false }

/-- `handleStart`: validate request fields, load the registration, ensure
the main checkout, pull (best-effort), read `grove.yaml`
(`env.groveYaml`: `none` — the file does not exist; `some (error e)` —
unreadable/unparseable, logged, treated as not found; `some (ok c)` —
found, overlaid onto the registration).  Missing config responds
`ok:false` with `init_path` before any worktree or container work.  Later
failures roll back what was created.  On success the instance is
registered and its snapshot persisted. -/
def handleStart (env : StartEnv) (project branch : String) : Response × StartEffects :=
  if project = "" then
    ({ ok := false, error := "project name required" }, noStartEffects)
  else if branch = "" then
    ({ ok := false, error := "branch name required" }, noStartEffects)
  else
    match env.loadProjectRes with
    | Except.error e => ({ ok := false, error := e }, noStartEffects)
    | Except.ok p =>
      match env.ensureMainErr with
      | some e => ({ ok := false, error := e }, noStartEffects)
      | none =>
        let inRepoFound :=
          match env.groveYaml with
          | some (Except.ok _) => true
          | _ => false
        let p :=
          match env.groveYaml with
          | some (Except.ok c) => applyInRepoOverlay p c
          | _ => p
        if !inRepoFound then
          ({ ok := false, error := "no grove.yaml found in " ++ project,
             initPath := p.MainDir }, noStartEffects)
        else
          match env.createWorktreeRes with
          | Except.error e => ({ ok := false, error := e }, noStartEffects)
          | Except.ok _worktreeDir =>
            match env.startContainerRes with
            | Except.error e =>
              ({ ok := false, error := e },
               { noStartEffects with worktreeCreated := true, worktreeRemoved := true })
            | Except.ok _containerName =>
              let rollback : StartEffects :=
                { worktreeCreated := true, worktreeRemoved := true,
                  containerStarted := true, containerStopped := true,
                  registered := false, persisted := false }
              match env.runStartErr with
              | some e => ({ ok := false, error := e }, rollback)
              | none =>
                match env.ensureAgentErr with
                | some e => ({ ok := false, error := e }, rollback)
                | none =>
                  match env.startAgentErr with
                  | some e => ({ ok := false, error := e }, rollback)
                  | none =>
                    ({ ok := true, instanceID := env.instanceID },
                     { worktreeCreated := true, worktreeRemoved := false,
                       containerStarted := true, containerStopped := false,
                       registered := true, persisted := true })

/-! ## Sample instances used by witnesses -/

/-- A live RUNNING instance that has never produced output
(`lastOutputTime` is the zero time). -/
def instRunningFresh : Instance :=
  { id := "1", project := "my-app", branch := "feat/x", worktreeDir := "/w/1",
    createdAt := 0, logFile := "/logs/1.log", state := StateRunning, pid := 42,
    ptm := some (), logBuf := [104, 105], lastOutputTime := 0, endedAt := 0,
    attachedConn := none, instancesDir := "/inst", finishRequest := false,
    killed := false }

/-- A RUNNING instance whose last output was at time 1 ns. -/
def instRunningActive : Instance :=
  { instRunningFresh with lastOutputTime := 1 }

/-- An instance in the EXITED terminal state. -/
def instExitedSample : Instance :=
  { instRunningFresh with state := StateExited, ptm := none, endedAt := 7 }

/-- An instance with an attached client connection. -/
def instAttachedSample : Instance :=
  { instRunningFresh with state := StateAttached, attachedConn := some 3 }

/-! ## Claim theorems -/

/-- C1: when the PTY read loop ends, `ptyReader` clears the PTY master,
records `ended_at`, and sets the terminal state: exit code zero → EXITED;
non-zero exit with the deliberate-kill flag → KILLED; otherwise CRASHED;
and a pending `finishRequest` overrides the result to FINISHED.  Holds for
every instance and every exit. -/
theorem ptyReader_exit_state (inst : Instance) (waitOk : Bool) (now : Int) :
    (inst.ptyReaderOnExit waitOk now).ptm = none ∧
    (inst.ptyReaderOnExit waitOk now).endedAt = now ∧
    (inst.ptyReaderOnExit waitOk now).state =
      (if inst.finishRequest then StateFinished
       else if waitOk then StateExited
       else if inst.killed then StateKilled
       else StateCrashed) := by
  unfold Instance.ptyReaderOnExit
  cases hf : inst.finishRequest <;> cases waitOk <;> cases hk : inst.killed <;>
    simp [hf, hk]

/-- C7 counterexample: the claim promotes every RUNNING instance whose
`last_output_time` lies more than 2 s in the past, but the code guards
with `!lastOutputTime.IsZero()`: a RUNNING instance that never produced
output has the zero `last_output_time` — a time far more than 2 s in the
past — yet is reported as RUNNING, not WAITING. -/
theorem Info_zero_time_not_promoted :
    instRunningFresh.state = StateRunning ∧
    (10 ^ 10 : Int) - instRunningFresh.lastOutputTime > waitingIdleThreshold ∧
    (instRunningFresh.Info (10 ^ 10)).1.state = StateRunning := by
  refine ⟨rfl, by decide, ?_⟩
  decide

/-- C7 (amended): in the `Info` snapshot, a stored RUNNING state is
reported as WAITING exactly when `last_output_time` is set (non-zero) and
more than 2 s in the past; RUNNING within the threshold, RUNNING with
`last_output_time` unset, and every non-RUNNING stored state are reported
verbatim; and taking the snapshot never modifies the stored state. -/
theorem Info_idle_promotion (inst : Instance) (now : Int) :
    (inst.state = StateRunning → inst.lastOutputTime ≠ 0 →
      now - inst.lastOutputTime > waitingIdleThreshold →
      (inst.Info now).1.state = StateWaiting) ∧
    (inst.state = StateRunning → ¬ now - inst.lastOutputTime > waitingIdleThreshold →
      (inst.Info now).1.state = StateRunning) ∧
    (inst.state = StateRunning → inst.lastOutputTime = 0 →
      (inst.Info now).1.state = StateRunning) ∧
    (inst.state ≠ StateRunning → (inst.Info now).1.state = inst.state) ∧
    (inst.Info now).2 = inst := by
  unfold Instance.Info
  refine ⟨?_, ?_, ?_, ?_, rfl⟩
  · intro h1 h2 h3
    rw [if_pos ⟨h1, h2, h3⟩]
  · intro h1 h3
    rw [if_neg (by tauto), h1]
  · intro h1 h2
    rw [if_neg (by tauto), h1]
  · intro h1
    rw [if_neg (by tauto)]

/-- C7 witness: concrete snapshots exercising each reporting rule. -/
theorem Info_idle_promotion_witness :
    (instRunningActive.Info (10 ^ 10)).1.state = StateWaiting ∧
    (instRunningActive.Info 2).1.state = StateRunning ∧
    (instRunningFresh.Info (10 ^ 10)).1.state = StateRunning ∧
    (instExitedSample.Info (10 ^ 10)).1.state = StateExited ∧
    (instExitedSample.Info (10 ^ 10)).2 = instExitedSample :=
  ⟨(Info_idle_promotion instRunningActive (10 ^ 10)).1 rfl (by decide) (by decide),
   (Info_idle_promotion instRunningActive 2).2.1 rfl (by decide),
   (Info_idle_promotion instRunningFresh (10 ^ 10)).2.2.1 rfl rfl,
   (Info_idle_promotion instExitedSample (10 ^ 10)).2.2.2.1 (by decide),
   (Info_idle_promotion instExitedSample (10 ^ 10)).2.2.2.2⟩

/-- C3: at most one connection is attached at a time — an attach on an
already-ATTACHED instance is rejected with the "already attached" error
and registers nothing; a successful attach registers the connection and
moves to ATTACHED, after which any further attach is rejected without
changing the instance; and when the attach reader returns while its
connection is still the registered one, the connection is cleared and
ATTACHED transitions back to RUNNING. -/
theorem Attach_mutual_exclusion (inst : Instance) (conn conn2 : Nat) :
    (inst.state = StateAttached →
      inst.AttachBegin conn = (inst, Except.error "already attached")) ∧
    (inst.state ≠ StateAttached →
      (inst.AttachBegin conn).1.attachedConn = some conn ∧
      (inst.AttachBegin conn).1.state = StateAttached ∧
      ((inst.AttachBegin conn).1.AttachBegin conn2) =
        ((inst.AttachBegin conn).1, Except.error "already attached")) ∧
    (inst.attachedConn = some conn →
      (inst.attachReaderCleanup conn).attachedConn = none ∧
      (inst.state = StateAttached →
        (inst.attachReaderCleanup conn).state = StateRunning)) := by
  refine ⟨?_, ?_, ?_⟩
  · intro h
    unfold Instance.AttachBegin
    rw [if_pos h]
  · intro h
    unfold Instance.AttachBegin
    rw [if_neg h]
    refine ⟨rfl, rfl, ?_⟩
    rw [if_pos rfl]
  · intro h
    unfold Instance.attachReaderCleanup
    rw [if_pos h]
    exact ⟨rfl, fun hs => by rw [if_pos hs]⟩

/-- C3 witness: a second attach on a concretely attached instance is
rejected; the reader cleanup on that instance detaches it back to
RUNNING. -/
theorem Attach_mutual_exclusion_witness :
    instAttachedSample.AttachBegin 9 =
      (instAttachedSample, Except.error "already attached") ∧
    (instAttachedSample.attachReaderCleanup 3).attachedConn = none ∧
    (instAttachedSample.attachReaderCleanup 3).state = StateRunning :=
  ⟨(Attach_mutual_exclusion instAttachedSample 9 0).1 rfl,
   ((Attach_mutual_exclusion instAttachedSample 3 0).2.2 rfl).1,
   ((Attach_mutual_exclusion instAttachedSample 3 0).2.2 rfl).2 rfl⟩

/-- C10: `handleLogs` has no precondition on instance state: for every
registered instance — whatever its state, terminal states included — the
handler responds `ok:true` followed by the current in-memory buffer
byte-for-byte, and leaves the daemon (hence the instance's state and
buffer) unchanged. -/
theorem handleLogs_no_precondition (d : Daemon) (id : String) (inst : Instance)
    (h : d.getInstance id = some inst) :
    d.handleLogs id = ({ ok := true, instanceID := id }, inst.logBuf, d) := by
  unfold Daemon.handleLogs
  rw [h]

/-- C10 witness: logs of a concrete FINISHED instance. -/
theorem handleLogs_no_precondition_witness :
    (Daemon.mk "/root/.grove"
        [("1", { instExitedSample with state := StateFinished })]).handleLogs "1" =
      ({ ok := true, instanceID := "1" },
       [104, 105],
       Daemon.mk "/root/.grove" [("1", { instExitedSample with state := StateFinished })]) :=
  handleLogs_no_precondition _ "1" { instExitedSample with state := StateFinished } rfl

set_option maxHeartbeats 2000000 in
/-- Normal form of the overlay: every field of the result, written as one
conditional per field. -/
theorem applyInRepoOverlay_fields (p c : Project) :
    applyInRepoOverlay p c =
      { name := p.name, repo := p.repo,
        container :=
          { image := if c.container.image ≠ "" then c.container.image else p.container.image,
            compose := if c.container.compose ≠ "" then c.container.compose else p.container.compose,
            service := if c.container.service ≠ "" then c.container.service else p.container.service,
            workdir := if c.container.workdir ≠ "" then c.container.workdir else p.container.workdir,
            mounts := if 0 < c.container.mounts.length then c.container.mounts else p.container.mounts },
        start := if 0 < c.start.length then c.start else p.start,
        finish := if 0 < c.finish.length then c.finish else p.finish,
        check := if 0 < c.check.length then c.check else p.check,
        agent := if c.agent.command ≠ "" then c.agent else p.agent,
        dataDir := p.dataDir } := by
  unfold applyInRepoOverlay
  split_ifs <;> rfl

/-- C8: the in-repo `grove.yaml` overlay replaces exactly the non-empty
fields: overlaying the zero-value config is the identity; the agent is
replaced iff the in-repo `agent.command` is non-empty; each list field
(start, finish, check, container.mounts) and each container scalar
(image, compose, service, workdir) is replaced iff its in-repo value is
non-empty; and the registration-only fields (name, repo, data dir) are
never touched. -/
theorem loadInRepoConfig_overlay (R C : Project) :
    applyInRepoOverlay R emptyInRepoConfig = R ∧
    (applyInRepoOverlay R C).agent = (if C.agent.command ≠ "" then C.agent else R.agent) ∧
    (applyInRepoOverlay R C).start = (if 0 < C.start.length then C.start else R.start) ∧
    (applyInRepoOverlay R C).finish = (if 0 < C.finish.length then C.finish else R.finish) ∧
    (applyInRepoOverlay R C).check = (if 0 < C.check.length then C.check else R.check) ∧
    (applyInRepoOverlay R C).container.mounts =
      (if 0 < C.container.mounts.length then C.container.mounts else R.container.mounts) ∧
    (applyInRepoOverlay R C).container.image =
      (if C.container.image ≠ "" then C.container.image else R.container.image) ∧
    (applyInRepoOverlay R C).container.compose =
      (if C.container.compose ≠ "" then C.container.compose else R.container.compose) ∧
    (applyInRepoOverlay R C).container.service =
      (if C.container.service ≠ "" then C.container.service else R.container.service) ∧
    (applyInRepoOverlay R C).container.workdir =
      (if C.container.workdir ≠ "" then C.container.workdir else R.container.workdir) ∧
    (applyInRepoOverlay R C).name = R.name ∧
    (applyInRepoOverlay R C).repo = R.repo ∧
    (applyInRepoOverlay R C).dataDir = R.dataDir := by
  rw [applyInRepoOverlay_fields R C, applyInRepoOverlay_fields R emptyInRepoConfig]
  refine ⟨?_, rfl, rfl, rfl, rfl, rfl, rfl, rfl, rfl, rfl, rfl, rfl, rfl⟩
  simp only [emptyInRepoConfig, ne_eq, not_true_eq_false, if_false, List.length_nil,
    lt_irrefl, if_neg]

/-- C2: on supervisor start, a parsed persisted snapshot in a live state
(RUNNING/WAITING/ATTACHED) is registered as CRASHED with `ended_at` set
to now and the corrected snapshot persisted back to disk, while a
snapshot in a terminal state (EXITED/CRASHED/KILLED/FINISHED) is
registered with that state and its `ended_at` kept verbatim, without a
rewrite.  (`ended_at` in a snapshot the system itself wrote is a Unix
timestamp ≥ 0 — `Info` emits 0 for the zero time and `Unix()` of a
present-day clock otherwise — hence the hypothesis.) -/
theorem loadPersistedInstances_reload (rootDir : String) (now : Int) (info : InstanceInfo)
    (hended : 0 ≤ info.endedAt) :
    ((info.state = StateRunning ∨ info.state = StateWaiting ∨ info.state = StateAttached) →
      (reloadPersistedInstance rootDir now info).1.state = StateCrashed ∧
      (reloadPersistedInstance rootDir now info).1.endedAt = now ∧
      (reloadPersistedInstance rootDir now info).1.id = info.id ∧
      (reloadPersistedInstance rootDir now info).2 = true) ∧
    ((info.state = StateExited ∨ info.state = StateCrashed ∨
      info.state = StateKilled ∨ info.state = StateFinished) →
      (reloadPersistedInstance rootDir now info).1.state = info.state ∧
      (reloadPersistedInstance rootDir now info).1.endedAt = info.endedAt ∧
      (reloadPersistedInstance rootDir now info).1.id = info.id ∧
      (reloadPersistedInstance rootDir now info).2 = false) := by
  constructor
  · intro hlive
    have hne : StateCrashed ≠ info.state := by
      rcases hlive with h | h | h <;> rw [h] <;> decide
    simp only [reloadPersistedInstance, if_pos hlive]
    simp [hne]
  · intro hterm
    have hnotlive : ¬ (info.state = StateRunning ∨ info.state = StateWaiting ∨
        info.state = StateAttached) := by
      rcases hterm with h | h | h | h <;> rw [h] <;> decide
    simp only [reloadPersistedInstance, if_neg hnotlive]
    refine ⟨by trivial, ?_, by trivial, by simp⟩
    by_cases hpos : info.endedAt > 0
    · rw [if_pos hpos]
    · rw [if_neg hpos]
      omega

/-- C2 witness: a RUNNING snapshot reloads as CRASHED and is re-persisted;
an EXITED snapshot reloads verbatim. -/
theorem loadPersistedInstances_reload_witness :
    ((reloadPersistedInstance "/r" 50
        ⟨"1", "my-app", StateRunning, "b", "/w", 10, 0, 42⟩).1.state = StateCrashed ∧
      (reloadPersistedInstance "/r" 50
        ⟨"1", "my-app", StateRunning, "b", "/w", 10, 0, 42⟩).1.endedAt = 50 ∧
      (reloadPersistedInstance "/r" 50
        ⟨"1", "my-app", StateRunning, "b", "/w", 10, 0, 42⟩).2 = true) ∧
    ((reloadPersistedInstance "/r" 50
        ⟨"2", "my-app", StateExited, "b", "/w", 10, 30, 42⟩).1.state = StateExited ∧
      (reloadPersistedInstance "/r" 50
        ⟨"2", "my-app", StateExited, "b", "/w", 10, 30, 42⟩).1.endedAt = 30 ∧
      (reloadPersistedInstance "/r" 50
        ⟨"2", "my-app", StateExited, "b", "/w", 10, 30, 42⟩).2 = false) :=
  have h1 := (loadPersistedInstances_reload "/r" 50
    ⟨"1", "my-app", StateRunning, "b", "/w", 10, 0, 42⟩ (by decide)).1 (Or.inl rfl)
  have h2 := (loadPersistedInstances_reload "/r" 50
    ⟨"2", "my-app", StateExited, "b", "/w", 10, 30, 42⟩ (by decide)).2 (Or.inl rfl)
  ⟨⟨h1.1, h1.2.1, h1.2.2.2⟩, ⟨h2.1, h2.2.1, h2.2.2.2⟩⟩

/-! ### The rolling-buffer cap (C4) -/

/-- The last `n` bytes of a byte list (all of it when shorter than `n`):
`l[len(l)-n:]`. -/
def tailBytes (n : Nat) (l : List Nat) : List Nat := l.drop (l.length - n)

theorem tailBytes_length (n : Nat) (l : List Nat) :
    (tailBytes n l).length = min l.length n := by
  rw [tailBytes, List.length_drop]
  omega

/-- Appending a chunk to a capped buffer and re-trimming yields the cap-bytes
tail of the whole extended stream. -/
theorem tailBytes_append_trim (M : Nat) (s c : List Nat) :
    (if (tailBytes M s ++ c).length > M
     then (tailBytes M s ++ c).drop ((tailBytes M s ++ c).length - M)
     else tailBytes M s ++ c) = tailBytes M (s ++ c) := by
  have hdrop : tailBytes M s ++ c = (s ++ c).drop (s.length - M) := by
    rw [tailBytes, List.drop_append_of_le_length (by omega)]
  have hts : (tailBytes M s).length = min s.length M := tailBytes_length M s
  by_cases h : (tailBytes M s ++ c).length > M
  · rw [if_pos h, hdrop, List.drop_drop, tailBytes]
    rw [List.length_append, hts] at h
    congr 1
    simp only [List.length_drop, List.length_append]
    omega
  · rw [if_neg h, hdrop, tailBytes]
    rw [List.length_append, hts] at h
    congr 1
    simp only [List.length_append]
    omega

/-- The buffer after the whole chunk-append phase is the cap-bytes tail of
the stream seen so far. -/
theorem ptyReaderLoop_logBuf (chunks : List (List Nat × Int)) :
    ∀ (inst : Instance) (s : List Nat), inst.logBuf = tailBytes maxLogBytes s →
      (inst.ptyReaderLoop chunks).logBuf =
        tailBytes maxLogBytes (s ++ (chunks.map Prod.fst).flatten) := by
  induction chunks with
  | nil =>
    intro inst s h
    simpa [Instance.ptyReaderLoop] using h
  | cons ch t ih =>
    intro inst s h
    have hstep : (inst.appendChunk ch.1 ch.2).logBuf = tailBytes maxLogBytes (s ++ ch.1) := by
      simp only [Instance.appendChunk]
      rw [h]
      exact tailBytes_append_trim maxLogBytes s ch.1
    have := ih (inst.appendChunk ch.1 ch.2) (s ++ ch.1) hstep
    simpa [Instance.ptyReaderLoop, List.append_assoc] using this

/-- C4: starting from an empty buffer, after every sequence of chunk
appends by the PTY reader the buffer holds exactly the most recent
`min(total bytes appended, 1 MiB)` bytes of the appended stream — in
particular it never exceeds 1 MiB — and a `logs_follow` follower whose
offset exceeds the current buffer length resets its offset to zero and
continues (it re-sends the whole buffer and its new offset is the buffer
length). -/
theorem logBuffer_cap (chunks : List (List Nat × Int)) (inst : Instance)
    (h : inst.logBuf = []) (buf : List Nat) (offset : Nat) :
    (inst.ptyReaderLoop chunks).logBuf =
      tailBytes maxLogBytes (chunks.map Prod.fst).flatten ∧
    (inst.ptyReaderLoop chunks).logBuf.length =
      min (chunks.map Prod.fst).flatten.length maxLogBytes ∧
    (inst.ptyReaderLoop chunks).logBuf.length ≤ maxLogBytes ∧
    (offset > buf.length → followPoll buf offset = (buf, buf.length)) := by
  have hbase : inst.logBuf = tailBytes maxLogBytes [] := by
    rw [h, tailBytes, List.drop_nil]
  have hmain := ptyReaderLoop_logBuf chunks inst [] hbase
  rw [List.nil_append] at hmain
  refine ⟨hmain, ?_, ?_, ?_⟩
  · rw [hmain, tailBytes_length]
  · rw [hmain, tailBytes_length]
    omega
  · intro hoff
    simp only [followPoll]
    rw [if_pos hoff]
    simp

/-- An instance whose rolling buffer is empty (fresh `startAgent`). -/
def instEmptyBuf : Instance := { instRunningFresh with logBuf := [] }

/-- C4 witness: two concrete appends, and a follower reset at a concrete
out-of-range offset. -/
theorem logBuffer_cap_witness :
    (instEmptyBuf.ptyReaderLoop [([1, 2, 3], 5), ([4], 6)]).logBuf =
      tailBytes maxLogBytes (([([1, 2, 3], 5), ([4], 6)].map Prod.fst).flatten) ∧
    (instEmptyBuf.ptyReaderLoop [([1, 2, 3], 5), ([4], 6)]).logBuf.length ≤ maxLogBytes ∧
    followPoll [1, 2] 5 = ([1, 2], 2) :=
  have h := logBuffer_cap [([1, 2, 3], 5), ([4], 6)] instEmptyBuf rfl [1, 2] 5
  ⟨h.1, h.2.2.1, h.2.2.2 (by decide)⟩

/-! ### Start against a project with no grove.yaml (C5) -/

/-- A registered project (name + repo only, as `loadProject` returns). -/
def projectMyApp : Project :=
  { name := "my-app", repo := "git@github.com:org/my-app.git",
    container := { image := "", compose := "", service := "", workdir := "", mounts := [] },
    start := [], finish := [], check := [],
    agent := { command := "", args := [] },
    dataDir := "/root/.grove/projects/my-app" }

/-- Oracle for a start in which everything is healthy except that the main
checkout has no `grove.yaml`. -/
def envNoGroveYaml : StartEnv :=
  { loadProjectRes := Except.ok projectMyApp,
    ensureMainErr := none, pullErr := none, groveYaml := none,
    createWorktreeRes := Except.ok "/root/.grove/projects/my-app/worktrees/1",
    startContainerRes := Except.ok "grove-1",
    runStartErr := none, ensureAgentErr := none, startAgentErr := none,
    instanceID := "1" }

/-- C5 counterexample: the handler's error text is
`"no grove.yaml found in <project>"`, not the claimed
`"no grove.yaml in <project>"`. -/
theorem handleStart_noConfig_error_text :
    (handleStart envNoGroveYaml "my-app" "feat/x").1.ok = false ∧
    (handleStart envNoGroveYaml "my-app" "feat/x").1.error = "no grove.yaml found in my-app" ∧
    (handleStart envNoGroveYaml "my-app" "feat/x").1.error ≠ "no grove.yaml in my-app" := by
  refine ⟨rfl, rfl, ?_⟩
  decide

/-- C5 (amended): when start is requested for a registered project whose
main checkout has no `grove.yaml`, the daemon responds `ok:false` with
error `"no grove.yaml found in <project>"` and `init_path` equal to the
main-checkout path, and performs no side effect: no instance is
registered, no snapshot is persisted, no worktree and no container is
created. -/
theorem handleStart_noConfig (env : StartEnv) (project branch : String) (p : Project)
    (hproj : project ≠ "") (hbr : branch ≠ "")
    (hload : env.loadProjectRes = Except.ok p)
    (hmain : env.ensureMainErr = none)
    (hyaml : env.groveYaml = none) :
    handleStart env project branch =
      ({ ok := false, error := "no grove.yaml found in " ++ project, initPath := p.MainDir },
       noStartEffects) := by
  unfold handleStart
  rw [if_neg hproj, if_neg hbr, hload, hmain, hyaml]
  rfl

/-- C5 witness: the concrete no-config start. -/
theorem handleStart_noConfig_witness :
    handleStart envNoGroveYaml "my-app" "feat/x" =
      ({ ok := false, error := "no grove.yaml found in my-app",
         initPath := "/root/.grove/projects/my-app/main" }, noStartEffects) := by
  have h := handleStart_noConfig envNoGroveYaml "my-app" "feat/x" projectMyApp
    (by decide) (by decide) rfl rfl rfl
  rw [h]
  rfl

/-! ### The ID allocator (C6) -/

theorem idAlphabet_sorted : idAlphabet.Pairwise (· < ·) := by
  have h : (idAlphabet.map String.toList).Pairwise (· < ·) := by decide
  rw [List.pairwise_map] at h
  exact h.imp fun hab => String.lt_iff_toList_lt.mpr hab

/-- `find?` splits its list into a failing prefix, the hit, and a tail. -/
theorem find?_decomp {α : Type} (p : α → Bool) :
    ∀ (l : List α) (r : α), l.find? p = some r →
      ∃ l1 l2, l = l1 ++ r :: l2 ∧ (∀ x ∈ l1, p x = false) ∧ p r = true := by
  intro l
  induction l with
  | nil => intro r h; exact absurd h (by simp)
  | cons a t ih =>
    intro r h
    by_cases ha : p a = true
    · rw [List.find?_cons_of_pos _ ha] at h
      obtain rfl : a = r := by injection h
      exact ⟨[], t, rfl, by simp, ha⟩
    · rw [List.find?_cons_of_neg _ (by simpa using ha)] at h
      obtain ⟨l1, l2, hl, h1, h2⟩ := ih r h
      refine ⟨a :: l1, l2, by rw [hl]; rfl, ?_, h2⟩
      intro x hx
      rcases List.mem_cons.mp hx with rfl | hx2
      · simpa using ha
      · exact h1 x hx2

/-- In a strictly sorted list, `find?` returns the least element
satisfying the predicate. -/
theorem find?_min_sorted {l : List String} (hs : l.Pairwise (· < ·))
    {p : String → Bool} {r : String} (hf : l.find? p = some r) :
    ∀ x ∈ l, p x = true → r ≤ x := by
  obtain ⟨l1, l2, hl, h1, hr⟩ := find?_decomp p l r hf
  subst hl
  intro x hx hpx
  rcases List.mem_append.mp hx with hx1 | hx2
  · exact absurd hpx (by simp [h1 x hx1])
  · rcases List.mem_cons.mp hx2 with rfl | hx3
    · exact le_refl x
    · have hpair := (List.pairwise_append.mp hs).2.1
      exact le_of_lt ((List.pairwise_cons.mp hpair).1 x hx3)

/-- C6: whenever some single-character ID is free, `nextInstanceID`
returns a free single-character ID that is lexicographically least among
the free ones — the first free ID in the order `1..9 a..z`; when all 35
single-character IDs are taken and some two-character ID is free, it
returns the first free two-character ID in the same scan order (every
pair scanned earlier is taken). -/
theorem nextInstanceID_lowest_free (d : Daemon) :
    ((∃ id ∈ idAlphabet, ((d.getInstance id).isNone : Prop)) →
      ∃ r, d.nextInstanceID = some r ∧ r ∈ idAlphabet ∧
        ((d.getInstance r).isNone : Prop) ∧
        ∀ id ∈ idAlphabet, ((d.getInstance id).isNone : Prop) → r ≤ id) ∧
    ((∀ id ∈ idAlphabet, ¬ ((d.getInstance id).isNone : Prop)) →
      (∃ id ∈ idPairs, ((d.getInstance id).isNone : Prop)) →
      ∃ r, d.nextInstanceID = some r ∧ r ∈ idPairs ∧
        ((d.getInstance r).isNone : Prop) ∧
        ∃ l1 l2, idPairs = l1 ++ r :: l2 ∧
          ∀ x ∈ l1, ¬ ((d.getInstance x).isNone : Prop)) := by
  constructor
  · intro hfree
    cases hf : idAlphabet.find? (fun id => (d.getInstance id).isNone) with
    | some r =>
      obtain ⟨l1, l2, hl, h1, hr⟩ := find?_decomp _ idAlphabet r hf
      refine ⟨r, ?_, List.mem_of_find?_eq_some hf, hr, ?_⟩
      · unfold Daemon.nextInstanceID
        rw [hf]
      · intro id hid hfreeid
        exact find?_min_sorted idAlphabet_sorted hf id hid hfreeid
    | none =>
      obtain ⟨id, hid, hfree2⟩ := hfree
      exact absurd hfree2 (List.find?_eq_none.mp hf id hid)
  · intro htaken hfreepair
    have hsingles : idAlphabet.find? (fun id => (d.getInstance id).isNone) = none :=
      List.find?_eq_none.mpr htaken
    cases hf : idPairs.find? (fun id => (d.getInstance id).isNone) with
    | some r =>
      obtain ⟨l1, l2, hl, h1, hr⟩ := find?_decomp _ idPairs r hf
      refine ⟨r, ?_, List.mem_of_find?_eq_some hf, hr, l1, l2, hl, ?_⟩
      · unfold Daemon.nextInstanceID
        rw [hsingles, hf]
      · intro x hx
        simp [h1 x hx]
    | none =>
      obtain ⟨id, hid, hfree2⟩ := hfreepair
      exact absurd hfree2 (List.find?_eq_none.mp hf id hid)

/-- A registry in which only ID "1" is taken. -/
def daemonOne : Daemon := Daemon.mk "/root/.grove" [("1", instRunningFresh)]

/-- A registry in which all 35 single-character IDs are taken. -/
def daemonFull : Daemon :=
  Daemon.mk "/root/.grove" (idAlphabet.map fun id => (id, instRunningFresh))

/-- C6 witness: the allocator characterisation applied to a registry with
one taken single-character ID, and to a registry with all 35 taken. -/
theorem nextInstanceID_lowest_free_witness :
    (∃ r, daemonOne.nextInstanceID = some r ∧ r ∈ idAlphabet ∧
      ((daemonOne.getInstance r).isNone : Prop) ∧
      ∀ id ∈ idAlphabet, ((daemonOne.getInstance id).isNone : Prop) → r ≤ id) ∧
    (∃ r, daemonFull.nextInstanceID = some r ∧ r ∈ idPairs ∧
      ((daemonFull.getInstance r).isNone : Prop) ∧
      ∃ l1 l2, idPairs = l1 ++ r :: l2 ∧
        ∀ x ∈ l1, ¬ ((daemonFull.getInstance x).isNone : Prop)) :=
  ⟨(nextInstanceID_lowest_free daemonOne).1 ⟨"2", by decide, by decide⟩,
   (nextInstanceID_lowest_free daemonFull).2 (by decide) ⟨"11", by decide, by decide⟩⟩

end Grove
